import Mathlib

/-!
Verification development for the walla-transactions scraper service.

The service (server.js and its sibling variants) is a small Express app that
drives a headless browser to export reports from a third-party site.  This
file gives a shallow embedding of the request-handling and browser-sequencing
logic and proves the behavioural properties stated about it.

Conventions of the embedding:
* JavaScript string falsiness (`undefined` or `""`) is modelled by `jsTruthy`
  on `Option String` (`none` = absent/undefined, `some ""` = empty string).
* A JavaScript asynchronous computation that either resolves with a value or
  rejects/throws with an error message is `JsOutcome`.
* Numbers fed to `Number(...)` are modelled over `ℚ`; a hint that is absent
  or parses to `NaN` is `none`.
-/

namespace WallaScraper

/-- Outcome of a JS async computation: it returns a value or throws, with the
thrown value stringified to a message. -/
inductive JsOutcome (α : Type) where
  | ret (a : α)
  | thrown (msg : String)
deriving DecidableEq

/-- JS truthiness of a string-valued expression: `undefined` (absent) and the
empty string are falsy, every other string is truthy. -/
def jsTruthy : Option String → Bool
  | none => false
  | some s => s ≠ ""

/-- JS `s.includes(pat)`: `pat` occurs as a contiguous substring of `s`. -/
def strIncludes (s pat : String) : Bool := decide (pat.data <:+: s.data)

/-! ## URL state detection (server.js lines 160–174)

`isLoginPage` / `isReportPage` parse the current URL and test its pathname;
a URL that fails to parse counts as neither.  A parsed URL is modelled by its
pathname and full href plus a flag recording whether `new URL(...)` succeeded. -/

/-- A browser URL as inspected by the route: whether `new URL` parses it, its
pathname, and its href (used in error messages). -/
structure JsUrl where
  parses : Bool
  pathname : String
  href : String
deriving DecidableEq

/-- server.js `isLoginPage`: pathname contains "/login"; unparsable URL → false. -/
def isLoginPage (u : JsUrl) : Bool := u.parses && strIncludes u.pathname "/login"

/-- server.js `isReportPage`: pathname contains "/reports/first-purchase";
unparsable URL → false. -/
def isReportPage (u : JsUrl) : Bool :=
  u.parses && strIncludes u.pathname "/reports/first-purchase"

/-! ## Session launcher: `withBrowser` (server.js lines 61–102)

`withBrowser` launches a browser, then inside a `try` block creates a context,
installs an init script, opens a page, sets the viewport and runs the caller's
work function; the `finally` block closes the browser.  The embedding tracks
how many times `browser.close()` is invoked. -/

/-- Behaviour of the four awaited setup steps inside `withBrowser`'s try block
(context creation, init-script install, page creation, viewport sizing); each
may resolve or throw. -/
structure SetupBehavior where
  newContext : JsOutcome Unit
  addInitScript : JsOutcome Unit
  newPage : JsOutcome Unit
  setViewportSize : JsOutcome Unit
deriving DecidableEq

/-- Sequencing of two awaited JS steps: a throw in the first aborts the rest. -/
def seqJs : JsOutcome Unit → JsOutcome Unit → JsOutcome Unit
  | .thrown e, _ => .thrown e
  | .ret _, b => b

/-- Run the setup steps of `withBrowser` in source order. -/
def runSetup (s : SetupBehavior) : JsOutcome Unit :=
  seqJs s.newContext (seqJs s.addInitScript (seqJs s.newPage s.setViewportSize))

/-- Result of one `withBrowser` call: the propagated outcome, whether the
browser process was actually launched, and how many times it was closed. -/
structure BrowserRun (α : Type) where
  outcome : JsOutcome α
  launched : Bool
  closes : Nat
deriving DecidableEq

/-- server.js `withBrowser`: launch the browser; on launch success run setup
and the work function inside `try`, closing the browser in `finally` on every
exit path.  A launch failure means no browser process ever existed. -/
def withBrowser {α : Type} (launch : JsOutcome Unit) (setup : SetupBehavior)
    (fn : JsOutcome α) : BrowserRun α :=
  match launch with
  | .thrown e => ⟨.thrown e, false, 0⟩
  | .ret _ =>
    let body : JsOutcome α :=
      match runSetup setup with
      | .thrown e => .thrown e
      | .ret _ => fn
    ⟨body, true, 1⟩

/-! ## Device scale factor (server.js line 62)

`const dpr = Math.max(1, Math.min(4, Number(opts.dpr) || 2));`
`Number(undefined)` and non-numeric strings give `NaN`, and both `NaN` and `0`
are falsy, so `Number(opts.dpr) || 2` yields `2` for an absent, non-numeric or
zero hint. -/

/-- `Number(opts.dpr) || 2`: `none` models an absent or NaN hint; a zero hint
is falsy and also falls back to 2. -/
def numberOr2 : Option ℚ → ℚ
  | none => 2
  | some x => if x = 0 then 2 else x

/-- The effective device scale factor: `Math.max(1, Math.min(4, Number(opts.dpr) || 2))`. -/
def effectiveDpr (hint : Option ℚ) : ℚ := max 1 (min 4 (numberOr2 hint))

/-! ## Export-control locator chain

server.js lines 280–305 (first-purchase): try the role-based button locator
for the "Export" control with a 30s bounded wait; on timeout fall back to a
broad text-contains locator (`getByText(/export/i)`, unanchored regex) with
another 30s wait; on timeout throw the "Export button not found – likely no
data" error.  part_000 lines 242–250 (sales): a single exact-text locator
(`getByText(/^\s*export\s*$/i)`) with a 60s wait. -/

/-- Kinds of locator strategy used for the export control: accessible role
"button" with name /export/i; exact-text match on a standalone "Export"
label; broad text-contains match. -/
inductive LocKind where
  | roleButton
  | exactText
  | containsText
deriving DecidableEq

/-- One locator strategy: its kind and the bounded wait applied to it (ms). -/
structure Strategy where
  kind : LocKind
  timeoutMs : Nat
deriving DecidableEq

/-- The fallback chain of server.js (first-purchase): role-button 30s, then
broad text-contains 30s. -/
def fpExportChain : List Strategy :=
  [⟨.roleButton, 30000⟩, ⟨.containsText, 30000⟩]

/-- The chain of part_000 (sales): a single exact-text strategy, 60s wait. -/
def salesExportChain : List Strategy := [⟨.exactText, 60000⟩]

/-- Modelled from the spec: the three-strategy chain the specification
describes — role button /export/i first (longest wait), then exact-text
"Export", then broad text-contains, with waits in the stated 15–60s band.
This definition follows the spec's words, not the source, and exists only to
be compared with the chains actually present in the source. -/
def specClaimedExportChain : List Strategy :=
  [⟨.roleButton, 60000⟩, ⟨.exactText, 30000⟩, ⟨.containsText, 15000⟩]

/-- A rendered page, abstracted for the locator chain: for each locator kind,
the time (ms) at which its target element becomes visible, or `none` if it
never does. -/
def PageVis : Type := LocKind → Option Nat

/-- One strategy's `waitFor({state:"visible", timeout})` succeeds iff the
element becomes visible within the strategy's bounded wait. -/
def strategyFinds (page : PageVis) (s : Strategy) : Bool :=
  match page s.kind with
  | some t => t ≤ s.timeoutMs
  | none => false

/-- Run a fallback chain: each later strategy is attempted only after the
previous one's wait expired; the first strategy that finds a visible element
wins.  Returns the trace of attempted strategy kinds and the winner (if any). -/
def runChain (page : PageVis) : List Strategy → List LocKind × Option LocKind
  | [] => ([], none)
  | s :: rest =>
    if strategyFinds page s then ([s.kind], some s.kind)
    else
      let r := runChain page rest
      (s.kind :: r.1, r.2)

/-- Message thrown by server.js when the export-control chain is exhausted
(line 301): the text before the URL interpolation. -/
def fpNoDataText : String :=
  "Export button not found – likely no data in this date range. Current URL: "

/-- server.js export-control location step: run the fallback chain; exhaustion
throws the "no data" error with the current URL interpolated. -/
def fpLocateExport (page : PageVis) (url : String) : JsOutcome LocKind :=
  match (runChain page fpExportChain).2 with
  | some k => .ret k
  | none => .thrown (fpNoDataText ++ url)

/-- `String(err)` on a JS `Error` object: the class name prefix plus message. -/
def jsErrorString (msg : String) : String := "Error: " ++ msg

/-! ## Post-login URL checks (server.js lines 251–269)

After the login attempt (or when no login was needed): if the URL is still on
the login path, throw the login-did-not-complete error.  Otherwise, if the
URL is not yet on the report path, navigate to the report URL explicitly and
wait for network idle; if the URL is then on the login path, throw the
unexpected-login-redirect error. -/

/-- Failures of the post-login URL checks; each carries the offending URL (the
thrown messages interpolate it). -/
inductive NavFailure where
  | loginDidNotComplete (url : String)
  | unexpectedLoginRedirect (url : String)
  | settleFailed (err : String)
deriving DecidableEq

instance {ε α : Type} [DecidableEq ε] [DecidableEq α] : DecidableEq (Except ε α) := fun a b =>
  match a, b with
  | .error e, .error f =>
    if h : e = f then isTrue (h ▸ rfl) else isFalse (fun c => h (Except.error.inj c))
  | .ok x, .ok y =>
    if h : x = y then isTrue (h ▸ rfl) else isFalse (fun c => h (Except.ok.inj c))
  | .error _, .ok _ => isFalse (fun c => Except.noConfusion c)
  | .ok _, .error _ => isFalse (fun c => Except.noConfusion c)

/-- Outcome of the post-login phase: whether the explicit report navigation
was performed, and the result (final URL or failure). -/
structure NavOutcome where
  navigatedAgain : Bool
  result : Except NavFailure JsUrl
deriving DecidableEq

/-- server.js lines 251–269.  `u1` is the page URL after the login block;
`navLanding` is where the explicit `page.goto(reportUrlStr)` lands when it is
performed; `idle` is the outcome of the subsequent
`waitForLoadState("networkidle")` (line 261, not guarded by try/catch, so a
throw there propagates). -/
def postLoginNavigate (u1 navLanding : JsUrl) (idle : JsOutcome Unit) : NavOutcome :=
  if isLoginPage u1 then
    ⟨false, .error (.loginDidNotComplete u1.href)⟩
  else if !isReportPage u1 then
    match idle with
    | .thrown e => ⟨true, .error (.settleFailed e)⟩
    | .ret _ =>
      if isLoginPage navLanding then
        ⟨true, .error (.unexpectedLoginRedirect navLanding.href)⟩
      else ⟨true, .ok navLanding⟩
  else
    if isLoginPage u1 then ⟨false, .error (.unexpectedLoginRedirect u1.href)⟩
    else ⟨false, .ok u1⟩

/-! ## HTTP responses

The JSON bodies the service produces.  The human-readable `details` strings
of the 400 responses are elided (`none`); for the catch-all handlers the
details field carries the stringified error, which the first-purchase catch
inspects. -/

/-- The `webhookResult` value recorded in a success response: the fetch
resolved (with the response ok flag and status), or the fetch threw. -/
inductive WebhookResultVal where
  | delivered (ok : Bool) (status : Nat)
  | threw (ok : Bool) (err : String)
deriving DecidableEq

/-- A response body: plain text, an error JSON `⟨ok, error, details⟩`, or the
success JSON with the file payload and the (nullable) webhook result. -/
inductive Body where
  | text (s : String)
  | errJson (ok : Bool) (error : String) (details : Option String)
  | successJson (fileName mimeType fileBase64 : String)
      (webhookResult : Option WebhookResultVal)
deriving DecidableEq

/-- An HTTP response: status code and body. -/
structure Response where
  status : Nat
  body : Body
deriving DecidableEq

/-- The `ok` field of a response body, if it has one (the success JSON always
carries `ok: true`). -/
def Response.okFlag : Response → Option Bool
  | ⟨_, .text _⟩ => none
  | ⟨_, .errJson ok _ _⟩ => some ok
  | ⟨_, .successJson _ _ _ _⟩ => some true

/-- The `error` field of a response body, if present. -/
def Response.errCode : Response → Option String
  | ⟨_, .errJson _ e _⟩ => some e
  | _ => none

/-- The `webhookResult` field of a response body, if present. -/
def Response.webhookField : Response → Option (Option WebhookResultVal)
  | ⟨_, .successJson _ _ _ w⟩ => some w
  | _ => none

/-- The captured export download: suggested file name, mime type, base64 data. -/
structure ExportFile where
  fileName : String
  mimeType : String
  fileBase64 : String
deriving DecidableEq

/-- Behaviour of the optional webhook POST (`fetch`): it resolves with a
response (ok flag and status) or it throws. -/
inductive WebhookOutcome where
  | fetchOk (respOk : Bool) (status : Nat)
  | fetchThrew (err : String)
deriving DecidableEq

/-- server.js lines 337–353: `webhookResult` starts as null; only when the
`webhook` query value is truthy is the POST attempted, and its outcome —
success or thrown — is recorded. -/
def runWebhook (webhook : Option String) (outcome : WebhookOutcome) :
    Option WebhookResultVal :=
  if jsTruthy webhook then
    some (match outcome with
      | .fetchOk respOk st => .delivered respOk st
      | .fetchThrew e => .threw false e)
  else none

/-- server.js lines 355–361: the success response (status 200 via `res.json`). -/
def successResponse (r : ExportFile) (wr : Option WebhookResultVal) : Response :=
  ⟨200, .successJson r.fileName r.mimeType r.fileBase64 wr⟩

/-- server.js lines 362–381: the first-purchase catch handler.  A message
containing "Export button not found" (or whose lowercasing contains "likely
no data") is answered 200 with the distinct error code `no_export_button`;
every other error is answered 500 `export_failed`. -/
def firstPurchaseCatch (message : String) : Response :=
  if strIncludes message "Export button not found"
      || strIncludes message.toLower "likely no data" then
    ⟨200, .errJson false "no_export_button" (some message)⟩
  else
    ⟨500, .errJson false "export_failed" (some message)⟩

/-- part_000 lines 305–312: the sales catch handler answers every error,
including the exhausted-locator "no data" error, with 500 `export_failed`. -/
def salesCatch (message : String) : Response :=
  ⟨500, .errJson false "export_failed" (some message)⟩

/-! ## The export route handler and the app pipeline -/

/-- Environment configuration read by the service. -/
structure Env where
  scraperToken : Option String
  wallaUser : Option String
  wallaPass : Option String
deriving DecidableEq

/-- The request-supplied inputs consulted by the pipeline: query parameters
`start`, `end`, `user`, `pass`, `webhook`, `key`, and the `x-api-key` header. -/
structure ExportRequest where
  startQ : Option String
  endQ : Option String
  user : Option String
  pass : Option String
  webhook : Option String
  headerKey : Option String
  queryKey : Option String
deriving DecidableEq

/-- `process.env.WALLA_USER || req.query.user` (server.js line 189). -/
def resolveUser (env : Env) (q : ExportRequest) : Option String :=
  if jsTruthy env.wallaUser then env.wallaUser else q.user

/-- `process.env.WALLA_PASS || req.query.pass` (server.js line 190). -/
def resolvePass (env : Env) (q : ExportRequest) : Option String :=
  if jsTruthy env.wallaPass then env.wallaPass else q.pass

/-- What the validation prelude of the export handler decides: reject with a
400 error code, or proceed to launch the browser with resolved credentials. -/
inductive HandlerStep where
  | reject400 (error : String)
  | launch (username password : String)
deriving DecidableEq

/-- server.js lines 179–198: reject `missing_params` when `start` or `end` is
falsy (absent or empty); then resolve credentials (environment first, query
fallback) and reject `missing_credentials` when either is falsy; otherwise
proceed. -/
def exportPrelude (env : Env) (q : ExportRequest) : HandlerStep :=
  if !jsTruthy q.startQ || !jsTruthy q.endQ then .reject400 "missing_params"
  else
    let username := resolveUser env q
    let password := resolvePass env q
    if !jsTruthy username || !jsTruthy password then .reject400 "missing_credentials"
    else .launch (username.getD "") (password.getD "")

/-- External behaviour a request run depends on: whether the browser launch
succeeds, how the setup steps behave, what the work function does, and how
the webhook fetch behaves. -/
structure World where
  launch : JsOutcome Unit
  setup : SetupBehavior
  fnOutcome : JsOutcome ExportFile
  webhookOutcome : WebhookOutcome

/-- server.js lines 176–383: the export route handler.  The second component
records the `withBrowser` run when one was started (`none` = no browser
session was ever launched for the request). -/
def exportHandler (env : Env) (q : ExportRequest) (w : World) :
    Response × Option (BrowserRun ExportFile) :=
  match exportPrelude env q with
  | .reject400 e => (⟨400, .errJson false e none⟩, none)
  | .launch _ _ =>
    let run := withBrowser w.launch w.setup w.fnOutcome
    match run.outcome with
    | .thrown msg => (firstPurchaseCatch msg, some run)
    | .ret r => (successResponse r (runWebhook q.webhook w.webhookOutcome), some run)

/-- server.js lines 39–47: the auth middleware.  `AUTH_TOKEN` is
`process.env.SCRAPER_TOKEN || ""`; a falsy token disables the gate.  The
supplied value is `req.get("x-api-key") || req.query.key` and the request
passes iff it strictly equals the token.  `none` = pass through to the next
handler; `some r` = reject with `r`. -/
def authGate (envToken headerKey queryKey : Option String) : Option Response :=
  let tok := envToken.getD ""
  if tok = "" then none
  else
    let supplied := if jsTruthy headerKey then headerKey else queryKey
    if supplied = some tok then none
    else some ⟨401, .errJson false "unauthorized" none⟩

/-- The Express pipeline in registration order (server.js lines 32–383): the
`/healthz` route first, then the auth middleware, then the export route; any
other path falls through to the Express 404 default. -/
def app (env : Env) (path : String) (q : ExportRequest) (w : World) :
    Response × Option (BrowserRun ExportFile) :=
  if path = "/healthz" then (⟨200, .text "ok"⟩, none)
  else
    match authGate env.scraperToken q.headerKey q.queryKey with
    | some resp => (resp, none)
    | none =>
      if path = "/export-walla-first-purchase" then exportHandler env q w
      else (⟨404, .text "Not Found"⟩, none)

/-- The same pipeline with the auth middleware removed, used to state that a
disabled or satisfied gate passes requests through unchanged. -/
def appNoGate (env : Env) (path : String) (q : ExportRequest) (w : World) :
    Response × Option (BrowserRun ExportFile) :=
  if path = "/healthz" then (⟨200, .text "ok"⟩, none)
  else if path = "/export-walla-first-purchase" then exportHandler env q w
  else (⟨404, .text "Not Found"⟩, none)

/-! ## Sample inputs used by witness theorems -/

/-- A setup behaviour in which every setup step succeeds. -/
def sampleSetup : SetupBehavior := ⟨.ret (), .ret (), .ret (), .ret ()⟩

/-- An environment with no auth token and both credentials configured. -/
def sampleEnv : Env := ⟨none, some "admin", some "hunter2"⟩

/-- A well-formed export request carrying only the date range. -/
def sampleReq : ExportRequest :=
  ⟨some "2024-01-01", some "2024-01-31", none, none, none, none, none⟩

/-- A world in which the launch, setup and work function all succeed. -/
def sampleWorld : World :=
  ⟨.ret (), sampleSetup, .ret ⟨"report.csv", "text/csv", "QUJD"⟩, .fetchThrew "network down"⟩

/-- A page on which no export-control locator ever finds a visible element. -/
def pageNever : PageVis := fun _ => none

/-- A page on which only the exact-text locator finds a visible element
(immediately); role-based and contains-based locators never do. -/
def pageExactOnly : PageVis := fun k =>
  match k with
  | .exactText => some 0
  | _ => none

/-- A page on which only the broad text-contains locator finds a visible
element (after 1s). -/
def pageContainsOnly : PageVis := fun k =>
  match k with
  | .containsText => some 1000
  | _ => none

/-- A login-page URL as seen by the route. -/
def urlLogin : JsUrl := ⟨true, "/login", "https://manage.hellowalla.com/login"⟩

/-- A first-purchase report URL as seen by the route. -/
def urlReport : JsUrl :=
  ⟨true, "/the-pearl/reports/first-purchase",
    "https://manage.hellowalla.com/the-pearl/reports/first-purchase"⟩

/-- A post-login URL that is neither the login page nor the report page. -/
def urlDashboard : JsUrl :=
  ⟨true, "/the-pearl/dashboard", "https://manage.hellowalla.com/the-pearl/dashboard"⟩

/-- A login-page URL reached by an unexpected redirect. -/
def urlLoginRedirect : JsUrl :=
  ⟨true, "/login", "https://manage.hellowalla.com/login?reason=expired"⟩

/-- The full stringified error thrown by the sales route when its single
export-control locator strategy is exhausted (part_000 lines 247–249). -/
def salesNoDataMessage : String :=
  "Error: Export button not found – likely no data in this date range. Current URL: https://manage.hellowalla.com/the-pearl/reports/sales | Inner error: locator.waitFor: Timeout 60000ms exceeded"

/-! ## Helper lemmas -/

/-- A substring of `s` is still a substring after appending more text. -/
theorem strIncludes_append (s t pat : String) (h : strIncludes s pat = true) :
    strIncludes (s ++ t) pat = true := by
  simp only [strIncludes, decide_eq_true_eq] at h ⊢
  rw [String.data_append]
  obtain ⟨u, v, huv⟩ := h
  exact ⟨u, v ++ t.data, by rw [← huv]; simp⟩

/-- When the validation prelude passes, the handler runs `withBrowser` and
records that run in its second component. -/
theorem exportHandler_run (env : Env) (q : ExportRequest) (w : World)
    (u p : String) (hp : exportPrelude env q = .launch u p) :
    (exportHandler env q w).2 = some (withBrowser w.launch w.setup w.fnOutcome) := by
  unfold exportHandler
  rw [hp]
  cases h : (withBrowser w.launch w.setup w.fnOutcome).outcome <;> simp [h]

/-! ## Claim theorems -/

/-- Claim C1: every export request that reaches the browser stage closes the
underlying browser process exactly once, on every exit path of the work
function — when it returns, when it throws, and when context/page setup
fails after the launch; and when setup succeeds the work function's outcome
is propagated unchanged. -/
theorem close_called_exactly_once :
    ∀ (setup : SetupBehavior) (fn : JsOutcome ExportFile) (env : Env)
      (q : ExportRequest) (w : World),
      (withBrowser (.ret ()) setup fn).closes = 1
      ∧ (runSetup setup = .ret () → (withBrowser (.ret ()) setup fn).outcome = fn)
      ∧ (w.launch = .ret () →
          ∀ run : BrowserRun ExportFile,
            (exportHandler env q w).2 = some run → run.closes = 1) := by
  intro setup fn env q w
  refine ⟨rfl, ?_, ?_⟩
  · intro h
    simp [withBrowser, h]
  · intro hl run hrun
    cases hp : exportPrelude env q with
    | reject400 e =>
      unfold exportHandler at hrun
      rw [hp] at hrun
      simp at hrun
    | launch u p =>
      rw [exportHandler_run env q w u p hp] at hrun
      have : run = withBrowser w.launch w.setup w.fnOutcome := by
        injection hrun with h
        exact h.symm
      rw [this, hl]
      rfl

/-- Witness for C1 at concrete inputs: a throwing work function, an
all-successful setup, and a full request run. -/
theorem close_called_exactly_once_witness :
    (withBrowser (.ret ()) sampleSetup
        (JsOutcome.thrown "login failed" : JsOutcome ExportFile)).closes = 1
    ∧ (withBrowser (.ret ()) sampleSetup
        (JsOutcome.thrown "login failed" : JsOutcome ExportFile)).outcome
        = .thrown "login failed"
    ∧ (withBrowser sampleWorld.launch sampleWorld.setup sampleWorld.fnOutcome).closes = 1 := by
  have h := close_called_exactly_once sampleSetup (.thrown "login failed")
    sampleEnv sampleReq sampleWorld
  refine ⟨h.1, h.2.1 rfl, ?_⟩
  have h2 := h.2.2 rfl (withBrowser sampleWorld.launch sampleWorld.setup sampleWorld.fnOutcome)
  exact h2 (exportHandler_run sampleEnv sampleReq sampleWorld "admin" "hunter2" rfl)

/-- Claim C2: a request with a missing (absent or empty, i.e. JS-falsy)
`start` or `end` is answered 400 `missing_params`; otherwise, when neither
the environment nor the `user`/`pass` query parameters supply both
credentials, it is answered 400 `missing_credentials`; in both cases no
browser session is launched.  Credential resolution takes the environment
value when it is truthy and falls back to the query parameter otherwise. -/
theorem export_request_validation :
    ∀ (env : Env) (q : ExportRequest) (w : World),
      ((jsTruthy q.startQ = false ∨ jsTruthy q.endQ = false) →
        exportHandler env q w = (⟨400, .errJson false "missing_params" none⟩, none))
      ∧ (jsTruthy q.startQ = true → jsTruthy q.endQ = true →
          (jsTruthy (resolveUser env q) = false ∨ jsTruthy (resolvePass env q) = false) →
          exportHandler env q w = (⟨400, .errJson false "missing_credentials" none⟩, none))
      ∧ (jsTruthy env.wallaUser = true → resolveUser env q = env.wallaUser)
      ∧ (jsTruthy env.wallaUser = false → resolveUser env q = q.user)
      ∧ (jsTruthy env.wallaPass = true → resolvePass env q = env.wallaPass)
      ∧ (jsTruthy env.wallaPass = false → resolvePass env q = q.pass) := by
  intro env q w
  refine ⟨?_, ?_, ?_, ?_, ?_, ?_⟩
  · intro h
    rcases h with h | h <;> simp [exportHandler, exportPrelude, h]
  · intro hs he hcred
    rcases hcred with h | h <;> simp [exportHandler, exportPrelude, hs, he, h]
  · intro h; simp [resolveUser, h]
  · intro h; simp [resolveUser, h]
  · intro h; simp [resolvePass, h]
  · intro h; simp [resolvePass, h]

/-- Witness for C2 at concrete inputs: an empty `start`, then absent
credentials, then the environment-before-query precedence. -/
theorem export_request_validation_witness :
    exportHandler sampleEnv ⟨some "", some "2024-01-31", none, none, none, none, none⟩
        sampleWorld
      = (⟨400, .errJson false "missing_params" none⟩, none)
    ∧ exportHandler ⟨none, none, none⟩ sampleReq sampleWorld
      = (⟨400, .errJson false "missing_credentials" none⟩, none)
    ∧ resolveUser sampleEnv ⟨some "2024-01-01", some "2024-01-31", some "qu", some "qp",
        none, none, none⟩ = some "admin"
    ∧ resolveUser ⟨none, none, none⟩ ⟨some "2024-01-01", some "2024-01-31", some "qu",
        some "qp", none, none, none⟩ = some "qu" := by
  refine ⟨?_, ?_, ?_, ?_⟩
  · exact (export_request_validation sampleEnv
      ⟨some "", some "2024-01-31", none, none, none, none, none⟩ sampleWorld).1
      (Or.inl (by decide))
  · exact (export_request_validation ⟨none, none, none⟩ sampleReq sampleWorld).2.1
      (by decide) (by decide) (Or.inl (by decide))
  · exact (export_request_validation sampleEnv ⟨some "2024-01-01", some "2024-01-31",
      some "qu", some "qp", none, none, none⟩ sampleWorld).2.2.1 (by decide)
  · exact (export_request_validation ⟨none, none, none⟩ ⟨some "2024-01-01",
      some "2024-01-31", some "qu", some "qp", none, none, none⟩ sampleWorld).2.2.2.1
      (by decide)

/-- Claim C3 counterexample: in the sales service (part_000), the
chain-exhaustion "no data" error is answered with the same status (500) and
the same error code (`export_failed`) as any generic automation failure —
the response does not identify the control-not-found / no-data condition
distinctly. -/
theorem sales_no_data_outcome_generic :
    salesCatch salesNoDataMessage
      = ⟨500, .errJson false "export_failed" (some salesNoDataMessage)⟩
    ∧ (salesCatch salesNoDataMessage).errCode
      = (salesCatch "Error: page.goto: net::ERR_CONNECTION_REFUSED").errCode
    ∧ (salesCatch salesNoDataMessage).status
      = (salesCatch "Error: page.goto: net::ERR_CONNECTION_REFUSED").status :=
  ⟨rfl, rfl, rfl⟩

/-- Claim C3 amended: in the first-purchase service (server.js), exhausting
the export-control locator chain throws the "no data" error, and the route's
catch answers it 200 with the distinct error code `no_export_button`, not the
generic `export_failed`; the sales service answers the same condition with
the generic 500 `export_failed`. -/
theorem first_purchase_no_data_distinguished :
    ∀ (page : PageVis) (url m : String),
      fpLocateExport page url = .thrown m →
      firstPurchaseCatch (jsErrorString m)
        = ⟨200, .errJson false "no_export_button" (some (jsErrorString m))⟩
      ∧ (firstPurchaseCatch (jsErrorString m)).errCode ≠ some "export_failed"
      ∧ (runChain page fpExportChain).2 = none := by
  intro page url m h
  unfold fpLocateExport at h
  cases h2 : (runChain page fpExportChain).2 with
  | some k =>
    rw [h2] at h
    exact absurd h (by simp)
  | none =>
    rw [h2] at h
    injection h with hm
    have hincl : strIncludes (jsErrorString m) "Export button not found" = true := by
      rw [← hm]
      show strIncludes ("Error: " ++ (fpNoDataText ++ url)) "Export button not found" = true
      rw [← String.append_assoc]
      exact strIncludes_append _ url _ (by decide)
    refine ⟨?_, ?_, rfl⟩
    · simp [firstPurchaseCatch, hincl]
    · simp [firstPurchaseCatch, hincl, Response.errCode]

/-- Witness for the amended C3 at a concrete page on which no locator ever
finds the export control. -/
theorem first_purchase_no_data_distinguished_witness :
    fpLocateExport pageNever "https://manage.hellowalla.com/the-pearl/reports/first-purchase"
      = .thrown (fpNoDataText
          ++ "https://manage.hellowalla.com/the-pearl/reports/first-purchase")
    ∧ firstPurchaseCatch (jsErrorString (fpNoDataText
          ++ "https://manage.hellowalla.com/the-pearl/reports/first-purchase"))
      = ⟨200, .errJson false "no_export_button" (some (jsErrorString (fpNoDataText
          ++ "https://manage.hellowalla.com/the-pearl/reports/first-purchase")))⟩ := by
  have h := first_purchase_no_data_distinguished pageNever
    "https://manage.hellowalla.com/the-pearl/reports/first-purchase"
    (fpNoDataText ++ "https://manage.hellowalla.com/the-pearl/reports/first-purchase")
    rfl
  exact ⟨rfl, h.1⟩

/-- Claim C4 counterexample: the first-purchase chain attempts the strategies
role-button then broad text-contains — it contains no exact-text stage, so it
is not the claimed three-strategy chain; on a page where only an exact-text
locator would find the control, the code chain is exhausted while the claimed
chain would succeed.  The sales chain (a single exact-text strategy) is not
the claimed chain either. -/
theorem export_chain_not_three_strategies :
    fpExportChain.map Strategy.kind
      ≠ [LocKind.roleButton, LocKind.exactText, LocKind.containsText]
    ∧ (runChain pageExactOnly fpExportChain).2 = none
    ∧ (runChain pageExactOnly specClaimedExportChain).2 = some LocKind.exactText
    ∧ salesExportChain.map Strategy.kind
      ≠ [LocKind.roleButton, LocKind.exactText, LocKind.containsText] := by
  decide

/-- Claim C4 amended: in the first-purchase service the export control is
located by a two-strategy prioritized chain — (1) accessible role "button"
with name /export/i (30s bounded wait), then (2) broad text-contains
/export/i (30s) — where the later strategy is attempted only after the
earlier wait expires and the first strategy finding a visible element wins;
the sales service uses a single exact-text strategy (60s). -/
theorem export_chain_two_strategies :
    ∀ page : PageVis,
      (strategyFinds page ⟨.roleButton, 30000⟩ = true →
        runChain page fpExportChain = ([LocKind.roleButton], some LocKind.roleButton))
      ∧ (strategyFinds page ⟨.roleButton, 30000⟩ = false →
          strategyFinds page ⟨.containsText, 30000⟩ = true →
          runChain page fpExportChain
            = ([LocKind.roleButton, LocKind.containsText], some LocKind.containsText))
      ∧ (strategyFinds page ⟨.roleButton, 30000⟩ = false →
          strategyFinds page ⟨.containsText, 30000⟩ = false →
          runChain page fpExportChain
            = ([LocKind.roleButton, LocKind.containsText], none))
      ∧ (strategyFinds page ⟨.exactText, 60000⟩ = false →
          runChain page salesExportChain = ([LocKind.exactText], none)) := by
  intro page
  refine ⟨?_, ?_, ?_, ?_⟩
  · intro h; simp [runChain, fpExportChain, h]
  · intro h1 h2; simp [runChain, fpExportChain, h1, h2]
  · intro h1 h2; simp [runChain, fpExportChain, h1, h2]
  · intro h; simp [runChain, salesExportChain, h]

/-- Witness for the amended C4 at concrete pages: one where only the broad
text-contains strategy finds the control, and one where no strategy does. -/
theorem export_chain_two_strategies_witness :
    runChain pageContainsOnly fpExportChain
      = ([LocKind.roleButton, LocKind.containsText], some LocKind.containsText)
    ∧ runChain pageNever fpExportChain = ([LocKind.roleButton, LocKind.containsText], none)
    ∧ runChain pageNever salesExportChain = ([LocKind.exactText], none) := by
  have h := export_chain_two_strategies pageContainsOnly
  have h2 := export_chain_two_strategies pageNever
  exact ⟨h.2.1 (by decide) (by decide), h2.2.2.1 (by decide) (by decide),
    h2.2.2.2 (by decide)⟩

/-- Claim C5: after the login attempt (or when none was needed), a URL still
on the login path fails with the login-did-not-complete error; a URL already
on the report path passes through with no extra navigation; otherwise the
route navigates to the report URL again, and if that navigation (with its
settle wait completing) lands on the login path it fails with the
unexpected-login-redirect error. -/
theorem post_login_url_checks :
    ∀ (u1 nav : JsUrl) (idle : JsOutcome Unit),
      (isLoginPage u1 = true →
        postLoginNavigate u1 nav idle
          = ⟨false, .error (.loginDidNotComplete u1.href)⟩)
      ∧ (isLoginPage u1 = false → isReportPage u1 = true →
          postLoginNavigate u1 nav idle = ⟨false, .ok u1⟩)
      ∧ (isLoginPage u1 = false → isReportPage u1 = false →
          (postLoginNavigate u1 nav idle).navigatedAgain = true
          ∧ (idle = .ret () → isLoginPage nav = true →
              (postLoginNavigate u1 nav idle).result
                = .error (.unexpectedLoginRedirect nav.href))) := by
  intro u1 nav idle
  refine ⟨?_, ?_, ?_⟩
  · intro h; simp [postLoginNavigate, h]
  · intro h1 h2; simp [postLoginNavigate, h1, h2]
  · intro h1 h2
    constructor
    · cases idle with
      | thrown e => simp [postLoginNavigate, h1, h2]
      | ret u =>
        by_cases h3 : isLoginPage nav = true <;>
          simp [postLoginNavigate, h1, h2, h3]
    · intro hi h3
      subst hi
      simp [postLoginNavigate, h1, h2, h3]

/-- Witness for C5 at concrete URLs: still on login; already on the report;
and a re-navigation that lands back on login. -/
theorem post_login_url_checks_witness :
    postLoginNavigate urlLogin urlReport (.ret ())
      = ⟨false, .error (.loginDidNotComplete urlLogin.href)⟩
    ∧ postLoginNavigate urlReport urlLoginRedirect (.ret ())
      = ⟨false, .ok urlReport⟩
    ∧ (postLoginNavigate urlDashboard urlLoginRedirect (.ret ())).navigatedAgain = true
    ∧ (postLoginNavigate urlDashboard urlLoginRedirect (.ret ())).result
      = .error (.unexpectedLoginRedirect urlLoginRedirect.href) := by
  have h1 := post_login_url_checks urlLogin urlReport (.ret ())
  have h2 := post_login_url_checks urlReport urlLoginRedirect (.ret ())
  have h3 := post_login_url_checks urlDashboard urlLoginRedirect (.ret ())
  refine ⟨h1.1 (by decide), h2.2.1 (by decide) (by decide), ?_, ?_⟩
  · exact (h3.2.2 (by decide) (by decide)).1
  · exact (h3.2.2 (by decide) (by decide)).2 rfl (by decide)

/-- Claim C6: when the export run succeeds, the response is status 200 with
`ok: true` regardless of the webhook outcome (delivered, non-ok status, or
thrown); the webhook outcome appears only in the `webhookResult` field, which
is null when no webhook was supplied. -/
theorem webhook_failure_does_not_affect_success :
    ∀ (env : Env) (q : ExportRequest) (w : World) (r : ExportFile) (u p : String),
      exportPrelude env q = .launch u p →
      (withBrowser w.launch w.setup w.fnOutcome).outcome = .ret r →
      (exportHandler env q w).1.status = 200
      ∧ (exportHandler env q w).1.okFlag = some true
      ∧ (exportHandler env q w).1.webhookField
          = some (runWebhook q.webhook w.webhookOutcome)
      ∧ (q.webhook = none → (exportHandler env q w).1.webhookField = some none) := by
  intro env q w r u p hp hr
  have hh : exportHandler env q w
      = (successResponse r (runWebhook q.webhook w.webhookOutcome),
         some (withBrowser w.launch w.setup w.fnOutcome)) := by
    unfold exportHandler
    rw [hp]
    simp [hr]
  rw [hh]
  refine ⟨rfl, rfl, rfl, ?_⟩
  intro hw
  simp [successResponse, Response.webhookField, runWebhook, hw, jsTruthy]

/-- Witness for C6 at concrete inputs: a successful run with no webhook
(null result) and one whose webhook fetch throws (recorded, response still
ok/200). -/
theorem webhook_failure_does_not_affect_success_witness :
    (exportHandler sampleEnv sampleReq sampleWorld).1.status = 200
    ∧ (exportHandler sampleEnv sampleReq sampleWorld).1.okFlag = some true
    ∧ (exportHandler sampleEnv sampleReq sampleWorld).1.webhookField = some none
    ∧ (exportHandler sampleEnv
        ⟨some "2024-01-01", some "2024-01-31", none, none,
          some "https://hook.example/x", none, none⟩ sampleWorld).1.okFlag = some true
    ∧ (exportHandler sampleEnv
        ⟨some "2024-01-01", some "2024-01-31", none, none,
          some "https://hook.example/x", none, none⟩ sampleWorld).1.webhookField
        = some (some (.threw false "network down")) := by
  have h := webhook_failure_does_not_affect_success sampleEnv sampleReq sampleWorld
    ⟨"report.csv", "text/csv", "QUJD"⟩ "admin" "hunter2" rfl rfl
  have h2 := webhook_failure_does_not_affect_success sampleEnv
    ⟨some "2024-01-01", some "2024-01-31", none, none,
      some "https://hook.example/x", none, none⟩ sampleWorld
    ⟨"report.csv", "text/csv", "QUJD"⟩ "admin" "hunter2" rfl rfl
  exact ⟨h.1, h.2.1, h.2.2.2 rfl, h2.2.1, h2.2.2.1.trans rfl⟩

/-- Claim C7: with a configured (non-empty) token, every route other than
`/healthz` is answered 401 `unauthorized` — and no browser session is
launched — unless the effective supplied key (the `x-api-key` header when
truthy, otherwise the `key` query parameter) equals the token, in which case
the pipeline behaves as if the gate were absent; with no token configured the
gate passes every request through unchanged. -/
theorem auth_gate_behavior :
    ∀ (env : Env) (path : String) (q : ExportRequest) (w : World),
      (env.scraperToken.getD "" = "" → app env path q w = appNoGate env path q w)
      ∧ (env.scraperToken.getD "" ≠ "" → path ≠ "/healthz" →
          (if jsTruthy q.headerKey then q.headerKey else q.queryKey)
            ≠ some (env.scraperToken.getD "") →
          app env path q w = (⟨401, .errJson false "unauthorized" none⟩, none))
      ∧ (env.scraperToken.getD "" ≠ "" →
          (if jsTruthy q.headerKey then q.headerKey else q.queryKey)
            = some (env.scraperToken.getD "") →
          app env path q w = appNoGate env path q w) := by
  intro env path q w
  refine ⟨?_, ?_, ?_⟩
  · intro h
    by_cases hp : path = "/healthz" <;> simp [app, appNoGate, authGate, h, hp]
  · intro ht hp hk
    simp [app, appNoGate, authGate, ht, hp, hk]
  · intro ht hk
    by_cases hp : path = "/healthz" <;> simp [app, appNoGate, authGate, ht, hk, hp]

/-- Witness for C7 at concrete inputs: a configured token with no key (401,
no browser run), a matching header key (passes), and no configured token
(gate is a no-op). -/
theorem auth_gate_behavior_witness :
    app ⟨some "s3cret", some "admin", some "hunter2"⟩ "/export-walla-first-purchase"
        sampleReq sampleWorld
      = (⟨401, .errJson false "unauthorized" none⟩, none)
    ∧ app ⟨some "s3cret", some "admin", some "hunter2"⟩ "/export-walla-first-purchase"
        ⟨some "2024-01-01", some "2024-01-31", none, none, none, some "s3cret", none⟩
        sampleWorld
      = appNoGate ⟨some "s3cret", some "admin", some "hunter2"⟩
          "/export-walla-first-purchase"
          ⟨some "2024-01-01", some "2024-01-31", none, none, none, some "s3cret", none⟩
          sampleWorld
    ∧ app sampleEnv "/export-walla-first-purchase" sampleReq sampleWorld
      = appNoGate sampleEnv "/export-walla-first-purchase" sampleReq sampleWorld := by
  have h1 := auth_gate_behavior ⟨some "s3cret", some "admin", some "hunter2"⟩
    "/export-walla-first-purchase" sampleReq sampleWorld
  have h2 := auth_gate_behavior ⟨some "s3cret", some "admin", some "hunter2"⟩
    "/export-walla-first-purchase"
    ⟨some "2024-01-01", some "2024-01-31", none, none, none, some "s3cret", none⟩
    sampleWorld
  have h3 := auth_gate_behavior sampleEnv "/export-walla-first-purchase" sampleReq
    sampleWorld
  exact ⟨h1.2.1 (by decide) (by decide) (by decide), h2.2.2 (by decide) (by decide),
    h3.1 (by decide)⟩

/-- Claim C8 counterexample: a device-scale-factor hint of 0 — which is below
1 — yields the default 2, not the claimed clamp to 1, because `Number(opts.dpr)
|| 2` treats the falsy 0 as an absent hint. -/
theorem dpr_zero_hint_yields_default :
    effectiveDpr (some 0) = 2 ∧ effectiveDpr (some 0) ≠ 1 ∧ (0 : ℚ) < 1 := by
  have h1 : min (4 : ℚ) 2 = 2 := min_eq_right (by norm_num)
  have h2 : max (1 : ℚ) 2 = 2 := max_eq_right (by norm_num)
  have he : effectiveDpr (some 0) = 2 := by
    simp only [effectiveDpr, numberOr2]
    rw [if_pos trivial, h1, h2]
  exact ⟨he, by rw [he]; norm_num, by norm_num⟩

/-- Claim C8 amended: the effective device scale factor always lies in [1,4];
an absent hint and a zero hint yield the default 2; a nonzero hint below 1
yields 1; a hint above 4 yields 4; a hint within [1,4] is used as given. -/
theorem dpr_clamped_amended :
    ∀ hint : Option ℚ,
      1 ≤ effectiveDpr hint ∧ effectiveDpr hint ≤ 4
      ∧ (hint = none → effectiveDpr hint = 2)
      ∧ (∀ x : ℚ, hint = some x → x ≠ 0 → x < 1 → effectiveDpr hint = 1)
      ∧ (∀ x : ℚ, hint = some x → 4 < x → effectiveDpr hint = 4)
      ∧ (∀ x : ℚ, hint = some x → 1 ≤ x → x ≤ 4 → effectiveDpr hint = x)
      ∧ (hint = some 0 → effectiveDpr hint = 2) := by
  intro hint
  have htwo : max (1 : ℚ) (min 4 2) = 2 := by
    rw [min_eq_right (by norm_num : (2 : ℚ) ≤ 4),
      max_eq_right (by norm_num : (1 : ℚ) ≤ 2)]
  refine ⟨le_max_left 1 _, max_le (by norm_num) (min_le_left 4 _), ?_, ?_, ?_, ?_, ?_⟩
  · intro h
    subst h
    exact htwo
  · intro x hx hx0 hx1
    subst hx
    simp only [effectiveDpr, numberOr2]
    rw [if_neg hx0, min_eq_right (le_of_lt (lt_of_lt_of_le hx1 (by norm_num))),
      max_eq_left (le_of_lt hx1)]
  · intro x hx h4
    subst hx
    have hx0 : x ≠ 0 := by intro h0; rw [h0] at h4; norm_num at h4
    simp only [effectiveDpr, numberOr2]
    rw [if_neg hx0, min_eq_left (le_of_lt h4),
      max_eq_right (by norm_num : (1 : ℚ) ≤ 4)]
  · intro x hx hx1 hx4
    subst hx
    have hx0 : x ≠ 0 := by intro h0; rw [h0] at hx1; norm_num at hx1
    simp only [effectiveDpr, numberOr2]
    rw [if_neg hx0, min_eq_right hx4, max_eq_right hx1]
  · intro h
    subst h
    simp only [effectiveDpr, numberOr2]
    rw [if_pos trivial]
    exact htwo

/-- Witness for the amended C8 at concrete hints: absent, one half, five,
three, zero, and seven. -/
theorem dpr_clamped_amended_witness :
    effectiveDpr none = 2
    ∧ effectiveDpr (some (1/2)) = 1
    ∧ effectiveDpr (some 5) = 4
    ∧ effectiveDpr (some 3) = 3
    ∧ effectiveDpr (some 0) = 2
    ∧ 1 ≤ effectiveDpr (some 7) :=
  ⟨(dpr_clamped_amended none).2.2.1 rfl,
    (dpr_clamped_amended (some (1/2))).2.2.2.1 (1/2) rfl (by norm_num) (by norm_num),
    (dpr_clamped_amended (some 5)).2.2.2.2.1 5 rfl (by norm_num),
    (dpr_clamped_amended (some 3)).2.2.2.2.2.1 3 rfl (by norm_num) (by norm_num),
    (dpr_clamped_amended (some 0)).2.2.2.2.2.2 rfl,
    (dpr_clamped_amended (some 7)).1⟩

/-- Claim C9: `GET /healthz` always returns the fixed success body with
status 200, for every environment (auth gate configured or not) and every
request (key supplied or not), because the health route is registered before
the gate middleware. -/
theorem healthz_independent_of_auth :
    ∀ (env : Env) (q : ExportRequest) (w : World),
      app env "/healthz" q w = (⟨200, .text "ok"⟩, none) := by
  intro env q w
  simp [app]

/-- Claim C10: configuring the token to the empty string behaves identically
to not configuring it at all; and with a non-empty token configured, a
request whose header key and query key are both absent or empty is always
rejected 401 with no browser session launched. -/
theorem empty_token_disables_gate :
    ∀ (env : Env) (path : String) (q : ExportRequest) (w : World),
      (env.scraperToken = some "" →
        app env path q w = app ⟨none, env.wallaUser, env.wallaPass⟩ path q w)
      ∧ (env.scraperToken.getD "" ≠ "" → path ≠ "/healthz" →
          jsTruthy q.headerKey = false → jsTruthy q.queryKey = false →
          app env path q w = (⟨401, .errJson false "unauthorized" none⟩, none)) := by
  intro env path q w
  constructor
  · intro h
    by_cases hp : path = "/healthz" <;>
      by_cases hx : path = "/export-walla-first-purchase" <;>
        simp [app, authGate, h, hp, hx, exportHandler, exportPrelude,
          resolveUser, resolvePass]
  · intro ht hp hh hq
    have hk : (if jsTruthy q.headerKey then q.headerKey else q.queryKey)
        ≠ some (env.scraperToken.getD "") := by
      rw [hh]
      simp only [Bool.false_eq_true, if_false]
      cases hqk : q.queryKey with
      | none => simp
      | some s =>
        have hs : s = "" := by
          rw [hqk] at hq
          simpa [jsTruthy] using hq
        subst hs
        intro hc
        injection hc with hc2
        exact ht hc2.symm
    simp [app, authGate, ht, hp, hk]

/-- Witness for C10 at concrete inputs: an empty-string token against an
unconfigured one, and a configured token with an empty supplied key. -/
theorem empty_token_disables_gate_witness :
    app ⟨some "", some "admin", some "hunter2"⟩ "/export-walla-first-purchase"
        sampleReq sampleWorld
      = app ⟨none, some "admin", some "hunter2"⟩ "/export-walla-first-purchase"
          sampleReq sampleWorld
    ∧ app ⟨some "s3cret", some "admin", some "hunter2"⟩ "/export-walla-first-purchase"
        ⟨some "2024-01-01", some "2024-01-31", none, none, none, none, some ""⟩
        sampleWorld
      = (⟨401, .errJson false "unauthorized" none⟩, none) := by
  have h1 := empty_token_disables_gate ⟨some "", some "admin", some "hunter2"⟩
    "/export-walla-first-purchase" sampleReq sampleWorld
  have h2 := empty_token_disables_gate ⟨some "s3cret", some "admin", some "hunter2"⟩
    "/export-walla-first-purchase"
    ⟨some "2024-01-01", some "2024-01-31", none, none, none, none, some ""⟩
    sampleWorld
  exact ⟨h1.1 rfl, h2.2 (by decide) (by decide) (by decide) (by decide)⟩

end WallaScraper
